import Mathlib

/-
Shallow embedding of `nautilus_trader/execution/database.pyx`
(class `InMemoryExecutionDatabase`, together with the `_reset` helper of
its base class `ExecutionDatabase`).

Python dictionaries are modelled as functions into `Option`, Python sets
as `Finset`.  Identifier value types (`AccountId`, `ClientOrderId`,
`PositionId`, `StrategyId`) are opaque hashable values; here they wrap a
natural number.  `PositionId` has a distinguished NULL value, modelled as
the wrapped value `0`.  Arguments that may be Python `None` are modelled
as `Option`; `Condition.not_none` / `Condition.not_in` / `Condition.is_in`
failures become `Except.error` results carrying a `DbError`.  Calls to
`self._log.error` inside commands are modelled by incrementing a
`log_error_count` field of the state; queries that log an error report it
in their return value instead.
-/

namespace NautilusExec

structure AccountId where
  value : Nat
deriving DecidableEq

structure ClientOrderId where
  value : Nat
deriving DecidableEq

structure PositionId where
  value : Nat
deriving DecidableEq

structure StrategyId where
  value : Nat
deriving DecidableEq

/-- `PositionId.is_null()`: the distinguished NULL position identifier. -/
def PositionId.is_null (p : PositionId) : Bool := p.value == 0

/-- `Account`: opaque record exposing its identity. -/
structure Account where
  id : AccountId
deriving DecidableEq

/-- `Order`: opaque record exposing identity and the state predicates
`is_working()` / `is_completed()` queried by `update_order`. -/
structure Order where
  cl_ord_id : ClientOrderId
  is_working : Bool
  is_completed : Bool
deriving DecidableEq

/-- `Position`: opaque record exposing identity, `from_order` and the
`is_closed()` state predicate queried by `update_position`. -/
structure Position where
  id : PositionId
  from_order : ClientOrderId
  is_closed : Bool
deriving DecidableEq

/-- `TradingStrategy`: only its identity is used by the database. -/
structure TradingStrategy where
  id : StrategyId
deriving DecidableEq

/-- Errors raised by the `Condition` precondition checks. -/
inductive DbError where
  | null_argument : String → DbError
  | already_in : String → String → DbError
  | missing_from : String → String → DbError
deriving DecidableEq

/-- Python dict assignment `m[k] = v` for dicts modelled as functions. -/
def fupd {α β : Type} [DecidableEq α] (f : α → Option β) (k : α) (v : β) :
    α → Option β :=
  fun x => if x = k then some v else f x

/-- Python dict deletion `del m[k]` (also covering the "key absent" case). -/
def fdel {α β : Type} [DecidableEq α] (f : α → Option β) (k : α) :
    α → Option β :=
  fun x => if x = k then none else f x

/-- The source pattern
`if k not in m: m[k] = {v}` / `else: m[k].add(v)`
for a dict of sets. -/
def madd {α β : Type} [DecidableEq α] [DecidableEq β]
    (m : α → Option (Finset β)) (k : α) (v : β) : α → Option (Finset β) :=
  fun x => if x = k then some (insert v ((m k).getD ∅)) else m x

/-- State of an `InMemoryExecutionDatabase`: the three primary stores of
the base class plus the strategy set and the twelve secondary indices,
and a counter of error-level log emissions by commands. -/
structure ExecDb where
  cached_accounts : AccountId → Option Account
  cached_orders : ClientOrderId → Option Order
  cached_positions : PositionId → Option Position
  strategies : Finset StrategyId
  index_order_position : ClientOrderId → Option PositionId
  index_order_strategy : ClientOrderId → Option StrategyId
  index_position_strategy : PositionId → Option StrategyId
  index_position_orders : PositionId → Option (Finset ClientOrderId)
  index_strategy_orders : StrategyId → Option (Finset ClientOrderId)
  index_strategy_positions : StrategyId → Option (Finset PositionId)
  index_orders : Finset ClientOrderId
  index_orders_working : Finset ClientOrderId
  index_orders_completed : Finset ClientOrderId
  index_positions : Finset PositionId
  index_positions_open : Finset PositionId
  index_positions_closed : Finset PositionId
  log_error_count : Nat

/-- The freshly constructed database (`__init__`). -/
def initDb : ExecDb where
  cached_accounts := fun _ => none
  cached_orders := fun _ => none
  cached_positions := fun _ => none
  strategies := ∅
  index_order_position := fun _ => none
  index_order_strategy := fun _ => none
  index_position_strategy := fun _ => none
  index_position_orders := fun _ => none
  index_strategy_orders := fun _ => none
  index_strategy_positions := fun _ => none
  index_orders := ∅
  index_orders_working := ∅
  index_orders_completed := ∅
  index_positions := ∅
  index_positions_open := ∅
  index_positions_closed := ∅
  log_error_count := 0

/-- `add_account`. -/
def add_account (s : ExecDb) (account : Option Account) :
    Except DbError ExecDb :=
  match account with
  | none => .error (.null_argument "account")
  | some a =>
    if (s.cached_accounts a.id).isSome then
      .error (.already_in "account.id" "cached_accounts")
    else
      .ok { s with cached_accounts := fupd s.cached_accounts a.id a }

/-- `index_position_id` (cdef helper).  The four index updates and the two
conflict log emissions act on pairwise distinct fields, so the sequential
source steps are written as one parallel record update. -/
def index_position_id (s : ExecDb) (position_id : PositionId)
    (cl_ord_id : ClientOrderId) (strategy_id : StrategyId) : ExecDb :=
  { s with
    index_order_position :=
      match s.index_order_position cl_ord_id with
      | none => fupd s.index_order_position cl_ord_id position_id
      | some _ => s.index_order_position
    index_position_strategy :=
      match s.index_position_strategy position_id with
      | none => fupd s.index_position_strategy position_id strategy_id
      | some _ => s.index_position_strategy
    index_position_orders := madd s.index_position_orders position_id cl_ord_id
    index_strategy_positions :=
      madd s.index_strategy_positions strategy_id position_id
    log_error_count := s.log_error_count
      + (match s.index_order_position cl_ord_id with
         | none => 0
         | some q => if q = position_id then 0 else 1)
      + (match s.index_position_strategy position_id with
         | none => 0
         | some q => if q = strategy_id then 0 else 1) }

/-- The insertions of `add_order` performed after its precondition
checks: the primary store, the "orders" set, order→strategy, and the
strategy→orders union. -/
def add_order_core (s : ExecDb) (o : Order) (sid : StrategyId) : ExecDb :=
  { s with
    cached_orders := fupd s.cached_orders o.cl_ord_id o
    index_orders := insert o.cl_ord_id s.index_orders
    index_order_strategy := fupd s.index_order_strategy o.cl_ord_id sid
    index_strategy_orders := madd s.index_strategy_orders sid o.cl_ord_id }

/-- `add_order`. -/
def add_order (s : ExecDb) (order : Option Order)
    (position_id : Option PositionId) (strategy_id : Option StrategyId) :
    Except DbError ExecDb :=
  match order, position_id, strategy_id with
  | none, _, _ => .error (.null_argument "order")
  | some _, none, _ => .error (.null_argument "position_id")
  | some _, some _, none => .error (.null_argument "strategy_id")
  | some o, some pid, some sid =>
    if (s.cached_orders o.cl_ord_id).isSome then
      .error (.already_in "order.cl_ord_id" "cached_orders")
    else if o.cl_ord_id ∈ s.index_orders then
      .error (.already_in "order.cl_ord_id" "index_orders")
    else if (s.index_order_position o.cl_ord_id).isSome then
      .error (.already_in "order.cl_ord_id" "index_order_position")
    else if (s.index_order_strategy o.cl_ord_id).isSome then
      .error (.already_in "order.cl_ord_id" "index_order_strategy")
    else
      let s1 : ExecDb := add_order_core s o sid
      if pid.is_null then
        .ok s1
      else
        .ok (index_position_id s1 pid o.cl_ord_id sid)

/-- The insertions of `add_position` performed after its precondition
checks: the primary store, the "positions" set, and "positions-open". -/
def add_position_core (s : ExecDb) (p : Position) : ExecDb :=
  { s with
    cached_positions := fupd s.cached_positions p.id p
    index_positions := insert p.id s.index_positions
    index_positions_open := insert p.id s.index_positions_open }

/-- `add_position`. -/
def add_position (s : ExecDb) (position : Option Position)
    (strategy_id : Option StrategyId) : Except DbError ExecDb :=
  match position, strategy_id with
  | none, _ => .error (.null_argument "position")
  | some _, none => .error (.null_argument "strategy_id")
  | some p, some sid =>
    if (s.cached_positions p.id).isSome then
      .error (.already_in "position.id" "cached_positions")
    else if p.id ∈ s.index_positions then
      .error (.already_in "position.id" "index_positions")
    else if p.id ∈ s.index_positions_open then
      .error (.already_in "position.id" "index_positions_open")
    else
      .ok (index_position_id (add_position_core s p) p.id p.from_order sid)

/-- `update_account`: a no-op for the in-memory database (no checks). -/
def update_account (s : ExecDb) (_account : Option Account) : ExecDb := s

/-- `update_strategy`. -/
def update_strategy (s : ExecDb) (strategy : Option TradingStrategy) :
    Except DbError ExecDb :=
  match strategy with
  | none => .error (.null_argument "strategy")
  | some st => .ok { s with strategies := insert st.id s.strategies }

/-- `update_order`. -/
def update_order (s : ExecDb) (order : Option Order) :
    Except DbError ExecDb :=
  match order with
  | none => .error (.null_argument "order")
  | some o =>
    if o.is_working then
      .ok { s with
        index_orders_working := insert o.cl_ord_id s.index_orders_working
        index_orders_completed := s.index_orders_completed.erase o.cl_ord_id }
    else if o.is_completed then
      .ok { s with
        index_orders_completed := insert o.cl_ord_id s.index_orders_completed
        index_orders_working := s.index_orders_working.erase o.cl_ord_id }
    else
      .ok s

/-- `update_position`. -/
def update_position (s : ExecDb) (position : Option Position) :
    Except DbError ExecDb :=
  match position with
  | none => .error (.null_argument "position")
  | some p =>
    if p.is_closed then
      .ok { s with
        index_positions_closed := insert p.id s.index_positions_closed
        index_positions_open := s.index_positions_open.erase p.id }
    else
      .ok s

/-- `delete_strategy`. -/
def delete_strategy (s : ExecDb) (strategy : Option TradingStrategy) :
    Except DbError ExecDb :=
  match strategy with
  | none => .error (.null_argument "strategy")
  | some st =>
    if st.id ∈ s.strategies then
      .ok { s with
        strategies := s.strategies.erase st.id
        index_strategy_orders := fdel s.index_strategy_orders st.id
        index_strategy_positions := fdel s.index_strategy_positions st.id }
    else
      .error (.missing_from "strategy.id" "strategies")

/-- `reset` (including the base-class `_reset` which clears the three
primary stores).  The external logger is unaffected. -/
def reset (s : ExecDb) : ExecDb where
  cached_accounts := fun _ => none
  cached_orders := fun _ => none
  cached_positions := fun _ => none
  strategies := ∅
  index_order_position := fun _ => none
  index_order_strategy := fun _ => none
  index_position_strategy := fun _ => none
  index_position_orders := fun _ => none
  index_strategy_orders := fun _ => none
  index_strategy_positions := fun _ => none
  index_orders := ∅
  index_orders_working := ∅
  index_orders_completed := ∅
  index_positions := ∅
  index_positions_open := ∅
  index_positions_closed := ∅
  log_error_count := s.log_error_count

/-- `get_account` / `load_account` (identical reads in memory). -/
def get_account (s : ExecDb) (account_id : AccountId) : Option Account :=
  s.cached_accounts account_id

/-- `load_account`. -/
def load_account (s : ExecDb) (account_id : AccountId) : Option Account :=
  s.cached_accounts account_id

/-- `get_order`. -/
def get_order (s : ExecDb) (cl_ord_id : ClientOrderId) : Option Order :=
  s.cached_orders cl_ord_id

/-- `load_order`. -/
def load_order (s : ExecDb) (cl_ord_id : ClientOrderId) : Option Order :=
  s.cached_orders cl_ord_id

/-- `get_position`. -/
def get_position (s : ExecDb) (position_id : PositionId) : Option Position :=
  s.cached_positions position_id

/-- `load_position`. -/
def load_position (s : ExecDb) (position_id : PositionId) : Option Position :=
  s.cached_positions position_id

/-- `get_position_id`. -/
def get_position_id (s : ExecDb) (cl_ord_id : ClientOrderId) :
    Option PositionId :=
  s.index_order_position cl_ord_id

/-- `get_strategy_for_order`. -/
def get_strategy_for_order (s : ExecDb) (cl_ord_id : ClientOrderId) :
    Option StrategyId :=
  s.index_order_strategy cl_ord_id

/-- `get_strategy_for_position`. -/
def get_strategy_for_position (s : ExecDb) (position_id : PositionId) :
    Option StrategyId :=
  s.index_position_strategy position_id

/-- `get_strategy_ids` (the `.copy()` is identity in a pure model). -/
def get_strategy_ids (s : ExecDb) : Finset StrategyId :=
  s.strategies

/-- `get_order_ids`. -/
def get_order_ids (s : ExecDb) (strategy_id : Option StrategyId) :
    Finset ClientOrderId :=
  match strategy_id with
  | none => s.index_orders
  | some sid =>
    match s.index_strategy_orders sid with
    | none => ∅
    | some t => s.index_orders ∩ t

/-- `get_order_working_ids`. -/
def get_order_working_ids (s : ExecDb) (strategy_id : Option StrategyId) :
    Finset ClientOrderId :=
  match strategy_id with
  | none => s.index_orders_working
  | some sid =>
    match s.index_strategy_orders sid with
    | none => ∅
    | some t => s.index_orders_working ∩ t

/-- `get_order_completed_ids`. -/
def get_order_completed_ids (s : ExecDb) (strategy_id : Option StrategyId) :
    Finset ClientOrderId :=
  match strategy_id with
  | none => s.index_orders_completed
  | some sid =>
    match s.index_strategy_orders sid with
    | none => ∅
    | some t => s.index_orders_completed ∩ t

/-- `get_position_ids`. -/
def get_position_ids (s : ExecDb) (strategy_id : Option StrategyId) :
    Finset PositionId :=
  match strategy_id with
  | none => s.index_positions
  | some sid =>
    match s.index_strategy_positions sid with
    | none => ∅
    | some t => s.index_positions ∩ t

/-- `get_position_open_ids`. -/
def get_position_open_ids (s : ExecDb) (strategy_id : Option StrategyId) :
    Finset PositionId :=
  match strategy_id with
  | none => s.index_positions_open
  | some sid =>
    match s.index_strategy_positions sid with
    | none => ∅
    | some t => s.index_positions_open ∩ t

/-- `get_position_closed_ids`. -/
def get_position_closed_ids (s : ExecDb) (strategy_id : Option StrategyId) :
    Finset PositionId :=
  match strategy_id with
  | none => s.index_positions_closed
  | some sid =>
    match s.index_strategy_positions sid with
    | none => ∅
    | some t => s.index_positions_closed ∩ t

/-- `order_exists`. -/
def order_exists (s : ExecDb) (cl_ord_id : ClientOrderId) : Bool :=
  decide (cl_ord_id ∈ s.index_orders)

/-- `is_order_working`. -/
def is_order_working (s : ExecDb) (cl_ord_id : ClientOrderId) : Bool :=
  decide (cl_ord_id ∈ s.index_orders_working)

/-- `is_order_completed`. -/
def is_order_completed (s : ExecDb) (cl_ord_id : ClientOrderId) : Bool :=
  decide (cl_ord_id ∈ s.index_orders_completed)

/-- `position_exists`. -/
def position_exists (s : ExecDb) (position_id : PositionId) : Bool :=
  decide (position_id ∈ s.index_positions)

/-- `position_exists_for_order`. -/
def position_exists_for_order (s : ExecDb) (cl_ord_id : ClientOrderId) :
    Bool :=
  match s.index_order_position cl_ord_id with
  | none => false
  | some position_id => decide (position_id ∈ s.index_positions)

/-- `position_indexed_for_order`. -/
def position_indexed_for_order (s : ExecDb) (cl_ord_id : ClientOrderId) :
    Bool :=
  (s.index_order_position cl_ord_id).isSome

/-- `is_position_open`. -/
def is_position_open (s : ExecDb) (position_id : PositionId) : Bool :=
  decide (position_id ∈ s.index_positions_open)

/-- `is_position_closed`. -/
def is_position_closed (s : ExecDb) (position_id : PositionId) : Bool :=
  decide (position_id ∈ s.index_positions_closed)

/-- `orders_total_count`. -/
def orders_total_count (s : ExecDb) (strategy_id : Option StrategyId) : Nat :=
  (get_order_ids s strategy_id).card

/-- `orders_working_count`. -/
def orders_working_count (s : ExecDb) (strategy_id : Option StrategyId) :
    Nat :=
  (get_order_working_ids s strategy_id).card

/-- `orders_completed_count`. -/
def orders_completed_count (s : ExecDb) (strategy_id : Option StrategyId) :
    Nat :=
  (get_order_completed_ids s strategy_id).card

/-- `positions_total_count`. -/
def positions_total_count (s : ExecDb) (strategy_id : Option StrategyId) :
    Nat :=
  (get_position_ids s strategy_id).card

/-- `positions_open_count`. -/
def positions_open_count (s : ExecDb) (strategy_id : Option StrategyId) :
    Nat :=
  (get_position_open_ids s strategy_id).card

/-- `positions_closed_count`. -/
def positions_closed_count (s : ExecDb) (strategy_id : Option StrategyId) :
    Nat :=
  (get_position_closed_ids s strategy_id).card

/-- The dict comprehension
`{i: cache[i] for i in ids}`:
either every id has a backing record and the comprehension yields the
mapping restricted to `ids`, or a `KeyError` aborts the whole
comprehension and no dict is produced. -/
def build_dict {K V : Type} [DecidableEq K] (ids : Finset K)
    (cache : K → Option V) : Option (K → Option V) :=
  if ∀ i ∈ ids, (cache i).isSome = true then
    some (fun i => if i ∈ ids then cache i else none)
  else
    none

/-- `get_orders`: on a `KeyError` the error is logged (second component
`true`) and the uninitialized `cdef dict orders` — which Cython
initializes to `None` — is returned. -/
def get_orders (s : ExecDb) (strategy_id : Option StrategyId) :
    Option (ClientOrderId → Option Order) × Bool :=
  match build_dict (get_order_ids s strategy_id) s.cached_orders with
  | some d => (some d, false)
  | none => (none, true)

/-- `get_orders_working`. -/
def get_orders_working (s : ExecDb) (strategy_id : Option StrategyId) :
    Option (ClientOrderId → Option Order) × Bool :=
  match build_dict (get_order_working_ids s strategy_id) s.cached_orders with
  | some d => (some d, false)
  | none => (none, true)

/-- `get_orders_completed`. -/
def get_orders_completed (s : ExecDb) (strategy_id : Option StrategyId) :
    Option (ClientOrderId → Option Order) × Bool :=
  match build_dict (get_order_completed_ids s strategy_id) s.cached_orders with
  | some d => (some d, false)
  | none => (none, true)

/-- `get_positions`. -/
def get_positions (s : ExecDb) (strategy_id : Option StrategyId) :
    Option (PositionId → Option Position) × Bool :=
  match build_dict (get_position_ids s strategy_id) s.cached_positions with
  | some d => (some d, false)
  | none => (none, true)

/-- `get_positions_open`. -/
def get_positions_open (s : ExecDb) (strategy_id : Option StrategyId) :
    Option (PositionId → Option Position) × Bool :=
  match build_dict (get_position_open_ids s strategy_id) s.cached_positions with
  | some d => (some d, false)
  | none => (none, true)

/-- `get_positions_closed`. -/
def get_positions_closed (s : ExecDb) (strategy_id : Option StrategyId) :
    Option (PositionId → Option Position) × Bool :=
  match build_dict (get_position_closed_ids s strategy_id)
      s.cached_positions with
  | some d => (some d, false)
  | none => (none, true)

/-- Commands of the public mutation surface. -/
inductive Cmd where
  | add_account : Option Account → Cmd
  | add_order : Option Order → Option PositionId → Option StrategyId → Cmd
  | add_position : Option Position → Option StrategyId → Cmd
  | update_account : Option Account → Cmd
  | update_strategy : Option TradingStrategy → Cmd
  | update_order : Option Order → Cmd
  | update_position : Option Position → Cmd
  | delete_strategy : Option TradingStrategy → Cmd
  | reset : Cmd
deriving DecidableEq

/-- Dispatch a command. -/
def exec (s : ExecDb) : Cmd → Except DbError ExecDb
  | .add_account a => add_account s a
  | .add_order o pid sid => add_order s o pid sid
  | .add_position p sid => add_position s p sid
  | .update_account a => .ok (update_account s a)
  | .update_strategy st => update_strategy s st
  | .update_order o => update_order s o
  | .update_position p => update_position s p
  | .delete_strategy st => delete_strategy s st
  | .reset => .ok (reset s)

/-- State after a command: all precondition checks precede any mutation
in the source, so a raising command leaves the state unchanged. -/
def apply_cmd (s : ExecDb) (c : Cmd) : ExecDb :=
  match exec s c with
  | .ok s1 => s1
  | .error _ => s

/-- State after a sequence of commands. -/
def run (s : ExecDb) : List Cmd → ExecDb
  | [] => s
  | c :: cs => run (apply_cmd s c) cs

/-- Whether an operation raised a precondition error. -/
def is_err {ε α : Type} : Except ε α → Bool
  | .error _ => true
  | .ok _ => false

/-- Either a command raises (leaving the state unchanged) or it returns
the successor state. -/
lemma apply_cmd_eq (s : ExecDb) (c : Cmd) :
    apply_cmd s c = s ∨ ∃ s1, exec s c = .ok s1 ∧ apply_cmd s c = s1 := by
  cases h : exec s c with
  | ok s1 => exact Or.inr ⟨s1, rfl, by simp [apply_cmd, h]⟩
  | error e => exact Or.inl (by simp [apply_cmd, h])

/-- Inversion of a successful `add_account`. -/
lemma add_account_ok_inv {s s1 : ExecDb} {a : Option Account}
    (h : add_account s a = .ok s1) :
    ∃ a0, a = some a0 ∧ (s.cached_accounts a0.id).isSome = false ∧
      s1 = { s with cached_accounts := fupd s.cached_accounts a0.id a0 } := by
  cases a with
  | none => exact absurd h (by simp [add_account])
  | some a0 =>
    refine ⟨a0, rfl, ?_⟩
    simp only [add_account] at h
    split_ifs at h with h1
    rw [Except.ok.injEq] at h
    exact ⟨by simpa using h1, h.symm⟩

/-- Inversion of a successful `add_order`. -/
lemma add_order_ok_inv {s s1 : ExecDb} {o : Option Order}
    {pid : Option PositionId} {sid : Option StrategyId}
    (h : add_order s o pid sid = .ok s1) :
    ∃ o0 pid0 sid0, o = some o0 ∧ pid = some pid0 ∧ sid = some sid0 ∧
      (s.cached_orders o0.cl_ord_id).isSome = false ∧
      o0.cl_ord_id ∉ s.index_orders ∧
      (s.index_order_position o0.cl_ord_id).isSome = false ∧
      (s.index_order_strategy o0.cl_ord_id).isSome = false ∧
      ((pid0.is_null = true ∧ s1 = add_order_core s o0 sid0) ∨
       (pid0.is_null = false ∧
        s1 = index_position_id (add_order_core s o0 sid0) pid0
          o0.cl_ord_id sid0)) := by
  rcases o with _ | o0
  · exact absurd h (by simp [add_order])
  rcases pid with _ | pid0
  · exact absurd h (by simp [add_order])
  rcases sid with _ | sid0
  · exact absurd h (by simp [add_order])
  refine ⟨o0, pid0, sid0, rfl, rfl, rfl, ?_⟩
  simp only [add_order] at h
  split_ifs at h with h1 h2 h3 h4 h5
  · rw [Except.ok.injEq] at h
    refine ⟨by simpa using h1, h2, by simpa using h3, by simpa using h4, ?_⟩
    exact Or.inl ⟨h5, h.symm⟩
  · rw [Except.ok.injEq] at h
    refine ⟨by simpa using h1, h2, by simpa using h3, by simpa using h4, ?_⟩
    exact Or.inr ⟨by simpa using h5, h.symm⟩

/-- Inversion of a successful `add_position`. -/
lemma add_position_ok_inv {s s1 : ExecDb} {p : Option Position}
    {sid : Option StrategyId} (h : add_position s p sid = .ok s1) :
    ∃ p0 sid0, p = some p0 ∧ sid = some sid0 ∧
      (s.cached_positions p0.id).isSome = false ∧
      p0.id ∉ s.index_positions ∧
      p0.id ∉ s.index_positions_open ∧
      s1 = index_position_id (add_position_core s p0) p0.id
        p0.from_order sid0 := by
  rcases p with _ | p0
  · exact absurd h (by simp [add_position])
  rcases sid with _ | sid0
  · exact absurd h (by simp [add_position])
  refine ⟨p0, sid0, rfl, rfl, ?_⟩
  simp only [add_position] at h
  split_ifs at h with h1 h2 h3
  rw [Except.ok.injEq] at h
  exact ⟨by simpa using h1, h2, h3, h.symm⟩

/-- Inversion of a successful `update_strategy`. -/
lemma update_strategy_ok_inv {s s1 : ExecDb} {st : Option TradingStrategy}
    (h : update_strategy s st = .ok s1) :
    ∃ st0, st = some st0 ∧
      s1 = { s with strategies := insert st0.id s.strategies } := by
  cases st with
  | none => exact absurd h (by simp [update_strategy])
  | some st0 =>
    refine ⟨st0, rfl, ?_⟩
    simp only [update_strategy, Except.ok.injEq] at h
    exact h.symm

/-- Inversion of a successful `update_order`. -/
lemma update_order_ok_inv {s s1 : ExecDb} {o : Option Order}
    (h : update_order s o = .ok s1) :
    ∃ o0, o = some o0 ∧
      ((o0.is_working = true ∧
        s1 = { s with
          index_orders_working :=
            insert o0.cl_ord_id s.index_orders_working
          index_orders_completed :=
            s.index_orders_completed.erase o0.cl_ord_id }) ∨
       (o0.is_working = false ∧ o0.is_completed = true ∧
        s1 = { s with
          index_orders_completed :=
            insert o0.cl_ord_id s.index_orders_completed
          index_orders_working :=
            s.index_orders_working.erase o0.cl_ord_id }) ∨
       (o0.is_working = false ∧ o0.is_completed = false ∧ s1 = s)) := by
  cases o with
  | none => exact absurd h (by simp [update_order])
  | some o0 =>
    refine ⟨o0, rfl, ?_⟩
    simp only [update_order] at h
    split_ifs at h with h1 h2
    · rw [Except.ok.injEq] at h
      exact Or.inl ⟨h1, h.symm⟩
    · rw [Except.ok.injEq] at h
      exact Or.inr (Or.inl ⟨by simpa using h1, h2, h.symm⟩)
    · rw [Except.ok.injEq] at h
      exact Or.inr (Or.inr ⟨by simpa using h1, by simpa using h2, h.symm⟩)

/-- Inversion of a successful `update_position`. -/
lemma update_position_ok_inv {s s1 : ExecDb} {p : Option Position}
    (h : update_position s p = .ok s1) :
    ∃ p0, p = some p0 ∧
      ((p0.is_closed = true ∧
        s1 = { s with
          index_positions_closed := insert p0.id s.index_positions_closed
          index_positions_open := s.index_positions_open.erase p0.id }) ∨
       (p0.is_closed = false ∧ s1 = s)) := by
  cases p with
  | none => exact absurd h (by simp [update_position])
  | some p0 =>
    refine ⟨p0, rfl, ?_⟩
    simp only [update_position] at h
    split_ifs at h with h1
    · rw [Except.ok.injEq] at h
      exact Or.inl ⟨h1, h.symm⟩
    · rw [Except.ok.injEq] at h
      exact Or.inr ⟨by simpa using h1, h.symm⟩

/-- Inversion of a successful `delete_strategy`. -/
lemma delete_strategy_ok_inv {s s1 : ExecDb} {st : Option TradingStrategy}
    (h : delete_strategy s st = .ok s1) :
    ∃ st0, st = some st0 ∧ st0.id ∈ s.strategies ∧
      s1 = { s with
        strategies := s.strategies.erase st0.id
        index_strategy_orders := fdel s.index_strategy_orders st0.id
        index_strategy_positions :=
          fdel s.index_strategy_positions st0.id } := by
  cases st with
  | none => exact absurd h (by simp [delete_strategy])
  | some st0 =>
    refine ⟨st0, rfl, ?_⟩
    simp only [delete_strategy] at h
    split_ifs at h with h1
    rw [Except.ok.injEq] at h
    exact ⟨h1, h.symm⟩

/-- Disjointness survives moving an element into the left set and out of
the right set. -/
lemma disjoint_insert_erase {α : Type} [DecidableEq α] {A B : Finset α}
    (c : α) (h : Disjoint A B) : Disjoint (insert c A) (B.erase c) := by
  rw [Finset.disjoint_insert_left]
  exact ⟨Finset.not_mem_erase c B, h.mono_right (Finset.erase_subset c B)⟩

/-- Disjointness survives moving an element into the right set and out of
the left set. -/
lemma disjoint_erase_insert {α : Type} [DecidableEq α] {A B : Finset α}
    (c : α) (h : Disjoint A B) : Disjoint (A.erase c) (insert c B) := by
  rw [Finset.disjoint_insert_right]
  exact ⟨Finset.not_mem_erase c A, h.mono_left (Finset.erase_subset c A)⟩

/-- A command is position-update-safe when any `update_position` targets
a position id currently in the "positions" set. -/
def good_cmd (s : ExecDb) : Cmd → Bool
  | .update_position (some p) => decide (p.id ∈ s.index_positions)
  | _ => true

/-- A command sequence is position-update-safe along its run. -/
def good_run (s : ExecDb) : List Cmd → Bool
  | [] => true
  | c :: cs => good_cmd s c && good_run (apply_cmd s c) cs

/-- Successful commands preserve disjointness of the orders-working and
orders-completed sets. -/
lemma exec_ok_wc {s s1 : ExecDb} {c : Cmd} (h : exec s c = .ok s1)
    (hd : Disjoint s.index_orders_working s.index_orders_completed) :
    Disjoint s1.index_orders_working s1.index_orders_completed := by
  cases c with
  | add_account a =>
    obtain ⟨a0, -, -, rfl⟩ := add_account_ok_inv h
    exact hd
  | add_order o pid sid =>
    obtain ⟨o0, pid0, sid0, -, -, -, -, -, -, -, hcase⟩ := add_order_ok_inv h
    rcases hcase with ⟨-, rfl⟩ | ⟨-, rfl⟩ <;> exact hd
  | add_position p sid =>
    obtain ⟨p0, sid0, -, -, -, -, -, rfl⟩ := add_position_ok_inv h
    exact hd
  | update_account a =>
    simp only [exec, Except.ok.injEq] at h
    rw [← h]
    exact hd
  | update_strategy st =>
    obtain ⟨st0, -, rfl⟩ := update_strategy_ok_inv h
    exact hd
  | update_order o =>
    obtain ⟨o0, -, hcase⟩ := update_order_ok_inv h
    rcases hcase with ⟨-, rfl⟩ | ⟨-, -, rfl⟩ | ⟨-, -, rfl⟩
    · exact disjoint_insert_erase _ hd
    · exact disjoint_erase_insert _ hd
    · exact hd
  | update_position p =>
    obtain ⟨p0, -, hcase⟩ := update_position_ok_inv h
    rcases hcase with ⟨-, rfl⟩ | ⟨-, rfl⟩ <;> exact hd
  | delete_strategy st =>
    obtain ⟨st0, -, -, rfl⟩ := delete_strategy_ok_inv h
    exact hd
  | reset =>
    simp only [exec, Except.ok.injEq] at h
    rw [← h]
    show Disjoint (∅ : Finset ClientOrderId) ∅
    simp

/-- Invariant carried through position-update-safe runs: the open and
closed position sets are disjoint and closed ids are known positions. -/
def pos_inv (s : ExecDb) : Prop :=
  Disjoint s.index_positions_open s.index_positions_closed ∧
  s.index_positions_closed ⊆ s.index_positions

/-- Successful position-update-safe commands preserve `pos_inv`. -/
lemma exec_ok_pos_inv {s s1 : ExecDb} {c : Cmd} (h : exec s c = .ok s1)
    (hg : good_cmd s c = true) (hi : pos_inv s) : pos_inv s1 := by
  obtain ⟨hd, hsub⟩ := hi
  cases c with
  | add_account a =>
    obtain ⟨a0, -, -, rfl⟩ := add_account_ok_inv h
    exact ⟨hd, hsub⟩
  | add_order o pid sid =>
    obtain ⟨o0, pid0, sid0, -, -, -, -, -, -, -, hcase⟩ := add_order_ok_inv h
    rcases hcase with ⟨-, rfl⟩ | ⟨-, rfl⟩ <;> exact ⟨hd, hsub⟩
  | add_position p sid =>
    obtain ⟨p0, sid0, -, -, -, hnp, -, rfl⟩ := add_position_ok_inv h
    constructor
    · show Disjoint (insert p0.id s.index_positions_open)
        s.index_positions_closed
      rw [Finset.disjoint_insert_left]
      exact ⟨fun hc => hnp (hsub hc), hd⟩
    · show s.index_positions_closed ⊆ insert p0.id s.index_positions
      exact hsub.trans (Finset.subset_insert _ _)
  | update_account a =>
    simp only [exec, Except.ok.injEq] at h
    rw [← h]
    exact ⟨hd, hsub⟩
  | update_strategy st =>
    obtain ⟨st0, -, rfl⟩ := update_strategy_ok_inv h
    exact ⟨hd, hsub⟩
  | update_order o =>
    obtain ⟨o0, -, hcase⟩ := update_order_ok_inv h
    rcases hcase with ⟨-, rfl⟩ | ⟨-, -, rfl⟩ | ⟨-, -, rfl⟩ <;> exact ⟨hd, hsub⟩
  | update_position p =>
    obtain ⟨p0, hp, hcase⟩ := update_position_ok_inv h
    subst hp
    rcases hcase with ⟨-, rfl⟩ | ⟨-, rfl⟩
    · constructor
      · show Disjoint (s.index_positions_open.erase p0.id)
          (insert p0.id s.index_positions_closed)
        exact disjoint_erase_insert _ hd
      · show insert p0.id s.index_positions_closed ⊆ s.index_positions
        exact Finset.insert_subset_iff.mpr ⟨of_decide_eq_true hg, hsub⟩
    · exact ⟨hd, hsub⟩
  | delete_strategy st =>
    obtain ⟨st0, -, -, rfl⟩ := delete_strategy_ok_inv h
    exact ⟨hd, hsub⟩
  | reset =>
    simp only [exec, Except.ok.injEq] at h
    rw [← h]
    constructor
    · show Disjoint (∅ : Finset PositionId) ∅
      simp
    · show (∅ : Finset PositionId) ⊆ ∅
      simp

/-- Runs preserve working/completed disjointness. -/
lemma run_wc (cmds : List Cmd) : ∀ s : ExecDb,
    Disjoint s.index_orders_working s.index_orders_completed →
    Disjoint (run s cmds).index_orders_working
      (run s cmds).index_orders_completed := by
  induction cmds with
  | nil => exact fun s h => h
  | cons c cs ih =>
    intro s h
    have h2 : Disjoint (apply_cmd s c).index_orders_working
        (apply_cmd s c).index_orders_completed := by
      rcases apply_cmd_eq s c with he | ⟨s1, hok, he⟩
      · rw [he]; exact h
      · rw [he]; exact exec_ok_wc hok h
    exact ih (apply_cmd s c) h2

/-- Position-update-safe runs preserve `pos_inv`. -/
lemma run_pos_inv (cmds : List Cmd) : ∀ s : ExecDb,
    pos_inv s → good_run s cmds = true → pos_inv (run s cmds) := by
  induction cmds with
  | nil => exact fun s h _ => h
  | cons c cs ih =>
    intro s h hg
    simp only [good_run, Bool.and_eq_true] at hg
    have h2 : pos_inv (apply_cmd s c) := by
      rcases apply_cmd_eq s c with he | ⟨s1, hok, he⟩
      · rw [he]; exact h
      · rw [he]; exact exec_ok_pos_inv hok hg.1 h
    exact ih (apply_cmd s c) h2 hg.2

/-- The order→position entry produced by `index_position_id`. -/
lemma ipi_order_position_eq (s : ExecDb) (pid : PositionId)
    (c0 : ClientOrderId) (sid : StrategyId) :
    (index_position_id s pid c0 sid).index_order_position =
      if (s.index_order_position c0).isSome then s.index_order_position
      else fupd s.index_order_position c0 pid := by
  show (match s.index_order_position c0 with
        | none => fupd s.index_order_position c0 pid
        | some _ => s.index_order_position) = _
  cases hc0 : s.index_order_position c0 <;> simp [hc0]

/-- `index_position_id` never erases an order→position entry. -/
lemma ipi_order_position_mono {s : ExecDb} (pid : PositionId)
    (c0 : ClientOrderId) (sid : StrategyId) (c : ClientOrderId)
    (hc : (s.index_order_position c).isSome = true) :
    ((index_position_id s pid c0 sid).index_order_position c).isSome =
      true := by
  rw [ipi_order_position_eq]
  split_ifs with h0
  · exact hc
  · by_cases hcc : c = c0
    · subst hcc; simp [fupd]
    · simpa [fupd, hcc] using hc

/-- After `index_position_id`, its client order id is indexed. -/
lemma ipi_order_position_c0 (s : ExecDb) (pid : PositionId)
    (c0 : ClientOrderId) (sid : StrategyId) :
    ((index_position_id s pid c0 sid).index_order_position c0).isSome =
      true := by
  rw [ipi_order_position_eq]
  split_ifs with h0
  · exact h0
  · simp [fupd]

/-- Membership in a `madd`-updated dict-of-sets. -/
lemma mem_madd_getD {α β : Type} [DecidableEq α] [DecidableEq β]
    (m : α → Option (Finset β)) (k x : α) (v w : β) :
    w ∈ ((madd m k v x).getD ∅) ↔
      (x = k ∧ (w = v ∨ w ∈ ((m k).getD ∅))) ∨
      (x ≠ k ∧ w ∈ ((m x).getD ∅)) := by
  by_cases hx : x = k <;> simp [madd, hx]

/-- Invariant: ids in a position→orders set are order→position indexed. -/
def orders_indexed (s : ExecDb) : Prop :=
  ∀ p c, c ∈ ((s.index_position_orders p).getD ∅) →
    (s.index_order_position c).isSome = true

/-- `index_position_id` preserves `orders_indexed`. -/
lemma ipi_orders_indexed {s : ExecDb} (pid : PositionId)
    (c0 : ClientOrderId) (sid : StrategyId) (h : orders_indexed s) :
    orders_indexed (index_position_id s pid c0 sid) := by
  intro p c hc
  have hpo : (index_position_id s pid c0 sid).index_position_orders =
      madd s.index_position_orders pid c0 := rfl
  rw [hpo, mem_madd_getD] at hc
  rcases hc with ⟨-, rfl | hcm⟩ | ⟨-, hcm⟩
  · exact ipi_order_position_c0 s pid c sid
  · exact ipi_order_position_mono pid c0 sid c (h pid c hcm)
  · exact ipi_order_position_mono pid c0 sid c (h p c hcm)

/-- Successful commands preserve `orders_indexed`. -/
lemma exec_ok_orders_indexed {s s1 : ExecDb} {c : Cmd}
    (h : exec s c = .ok s1) (hi : orders_indexed s) : orders_indexed s1 := by
  cases c with
  | add_account a =>
    obtain ⟨a0, -, -, rfl⟩ := add_account_ok_inv h
    exact hi
  | add_order o pid sid =>
    obtain ⟨o0, pid0, sid0, -, -, -, -, -, -, -, hcase⟩ := add_order_ok_inv h
    rcases hcase with ⟨-, rfl⟩ | ⟨-, rfl⟩
    · exact hi
    · exact ipi_orders_indexed pid0 o0.cl_ord_id sid0 hi
  | add_position p sid =>
    obtain ⟨p0, sid0, -, -, -, -, -, rfl⟩ := add_position_ok_inv h
    exact ipi_orders_indexed p0.id p0.from_order sid0 hi
  | update_account a =>
    simp only [exec, Except.ok.injEq] at h
    rw [← h]
    exact hi
  | update_strategy st =>
    obtain ⟨st0, -, rfl⟩ := update_strategy_ok_inv h
    exact hi
  | update_order o =>
    obtain ⟨o0, -, hcase⟩ := update_order_ok_inv h
    rcases hcase with ⟨-, rfl⟩ | ⟨-, -, rfl⟩ | ⟨-, -, rfl⟩ <;> exact hi
  | update_position p =>
    obtain ⟨p0, -, hcase⟩ := update_position_ok_inv h
    rcases hcase with ⟨-, rfl⟩ | ⟨-, rfl⟩ <;> exact hi
  | delete_strategy st =>
    obtain ⟨st0, -, -, rfl⟩ := delete_strategy_ok_inv h
    exact hi
  | reset =>
    simp only [exec, Except.ok.injEq] at h
    rw [← h]
    intro p c hc
    simp [reset] at hc

/-- `orders_indexed` holds along every run from the fresh store. -/
lemma run_orders_indexed (cmds : List Cmd) :
    orders_indexed (run initDb cmds) := by
  have base : orders_indexed initDb := by
    intro p c hc
    simp [initDb] at hc
  have step : ∀ cs : List Cmd, ∀ s : ExecDb,
      orders_indexed s → orders_indexed (run s cs) := by
    intro cs
    induction cs with
    | nil => exact fun s h => h
    | cons c cs2 ih =>
      intro s h
      have h2 : orders_indexed (apply_cmd s c) := by
        rcases apply_cmd_eq s c with he | ⟨s1, hok, he⟩
        · rw [he]; exact h
        · rw [he]; exact exec_ok_orders_indexed hok h
      exact ih (apply_cmd s c) h2
  exact step cmds initDb base

/-- The position→strategy entry produced by `index_position_id`. -/
lemma ipi_position_strategy_eq (s : ExecDb) (pid : PositionId)
    (c0 : ClientOrderId) (sid : StrategyId) :
    (index_position_id s pid c0 sid).index_position_strategy =
      if (s.index_position_strategy pid).isSome then
        s.index_position_strategy
      else fupd s.index_position_strategy pid sid := by
  show (match s.index_position_strategy pid with
        | none => fupd s.index_position_strategy pid sid
        | some _ => s.index_position_strategy) = _
  cases h0 : s.index_position_strategy pid <;> simp [h0]

/-- Log count of `index_position_id` when the order→position entry
conflicts. -/
lemma ipi_log_conflict_order (s : ExecDb) (pid : PositionId)
    (c0 : ClientOrderId) (sid : StrategyId) (q : PositionId)
    (hq : s.index_order_position c0 = some q) (hne : q ≠ pid) :
    (index_position_id s pid c0 sid).log_error_count =
      s.log_error_count + 1
      + (match s.index_position_strategy pid with
         | none => 0
         | some r => if r = sid then 0 else 1) := by
  show s.log_error_count
      + (match s.index_order_position c0 with
         | none => 0
         | some q2 => if q2 = pid then 0 else 1)
      + (match s.index_position_strategy pid with
         | none => 0
         | some r => if r = sid then 0 else 1) = _
  rw [hq]
  simp [hne]

/-- Log count of `index_position_id` when the position→strategy entry
conflicts. -/
lemma ipi_log_conflict_strategy (s : ExecDb) (pid : PositionId)
    (c0 : ClientOrderId) (sid : StrategyId) (r : StrategyId)
    (hr : s.index_position_strategy pid = some r) (hne : r ≠ sid) :
    (index_position_id s pid c0 sid).log_error_count =
      s.log_error_count
      + (match s.index_order_position c0 with
         | none => 0
         | some q => if q = pid then 0 else 1) + 1 := by
  show s.log_error_count
      + (match s.index_order_position c0 with
         | none => 0
         | some q => if q = pid then 0 else 1)
      + (match s.index_position_strategy pid with
         | none => 0
         | some r2 => if r2 = sid then 0 else 1) = _
  rw [hr]
  simp [hne]

/-- Claim C2: every filtered id-set query is the intersection of the
unfiltered query with the strategy-scoped secondary set, and a strategy
with no entry in the strategy-scoped index yields the empty set. -/
theorem strategy_filter_correct (s : ExecDb) (sid : StrategyId) :
    (get_order_ids s (some sid) =
      get_order_ids s none ∩ (s.index_strategy_orders sid).getD ∅) ∧
    (get_order_working_ids s (some sid) =
      get_order_working_ids s none ∩ (s.index_strategy_orders sid).getD ∅) ∧
    (get_order_completed_ids s (some sid) =
      get_order_completed_ids s none ∩
        (s.index_strategy_orders sid).getD ∅) ∧
    (get_position_ids s (some sid) =
      get_position_ids s none ∩ (s.index_strategy_positions sid).getD ∅) ∧
    (get_position_open_ids s (some sid) =
      get_position_open_ids s none ∩
        (s.index_strategy_positions sid).getD ∅) ∧
    (get_position_closed_ids s (some sid) =
      get_position_closed_ids s none ∩
        (s.index_strategy_positions sid).getD ∅) ∧
    (s.index_strategy_orders sid = none →
      get_order_ids s (some sid) = ∅ ∧
      get_order_working_ids s (some sid) = ∅ ∧
      get_order_completed_ids s (some sid) = ∅) ∧
    (s.index_strategy_positions sid = none →
      get_position_ids s (some sid) = ∅ ∧
      get_position_open_ids s (some sid) = ∅ ∧
      get_position_closed_ids s (some sid) = ∅) := by
  refine ⟨?_, ?_, ?_, ?_, ?_, ?_, ?_, ?_⟩
  · cases h : s.index_strategy_orders sid <;> simp [get_order_ids, h]
  · cases h : s.index_strategy_orders sid <;>
      simp [get_order_working_ids, h]
  · cases h : s.index_strategy_orders sid <;>
      simp [get_order_completed_ids, h]
  · cases h : s.index_strategy_positions sid <;> simp [get_position_ids, h]
  · cases h : s.index_strategy_positions sid <;>
      simp [get_position_open_ids, h]
  · cases h : s.index_strategy_positions sid <;>
      simp [get_position_closed_ids, h]
  · intro h
    exact ⟨by simp [get_order_ids, h], by simp [get_order_working_ids, h],
      by simp [get_order_completed_ids, h]⟩
  · intro h
    exact ⟨by simp [get_position_ids, h],
      by simp [get_position_open_ids, h],
      by simp [get_position_closed_ids, h]⟩

/-- Witness for C2 at a concrete store and strategy with no index
entry. -/
theorem strategy_filter_correct_w :
    get_order_ids initDb (some ⟨1⟩) = ∅ ∧
    get_position_ids initDb (some ⟨1⟩) = ∅ := by
  have h := strategy_filter_correct initDb ⟨1⟩
  exact ⟨(h.2.2.2.2.2.2.1 rfl).1, (h.2.2.2.2.2.2.2 rfl).1⟩

/-- Claim C4: the add commands raise a precondition error exactly for a
null argument or a duplicate identifier in the listed containers. -/
theorem add_commands_fail_iff (s : ExecDb) :
    (∀ (o : Option Order) (pid : Option PositionId)
        (sid : Option StrategyId),
      is_err (add_order s o pid sid) = true ↔
        o = none ∨ pid = none ∨ sid = none ∨
        ∃ o0, o = some o0 ∧
          ((s.cached_orders o0.cl_ord_id).isSome = true ∨
           o0.cl_ord_id ∈ s.index_orders ∨
           (s.index_order_position o0.cl_ord_id).isSome = true ∨
           (s.index_order_strategy o0.cl_ord_id).isSome = true)) ∧
    (∀ (p : Option Position) (sid : Option StrategyId),
      is_err (add_position s p sid) = true ↔
        p = none ∨ sid = none ∨
        ∃ p0, p = some p0 ∧
          ((s.cached_positions p0.id).isSome = true ∨
           p0.id ∈ s.index_positions ∨
           p0.id ∈ s.index_positions_open)) ∧
    (∀ a : Option Account,
      is_err (add_account s a) = true ↔
        a = none ∨
        ∃ a0, a = some a0 ∧ (s.cached_accounts a0.id).isSome = true) := by
  refine ⟨?_, ?_, ?_⟩
  · rintro (_ | o0) (_ | pid0) (_ | sid0) <;> simp [add_order, is_err] <;>
      split_ifs <;> simp_all [is_err]
  · rintro (_ | p0) (_ | sid0) <;> simp [add_position, is_err] <;>
      split_ifs <;> simp_all [is_err]
  · rintro (_ | a0) <;> simp [add_account, is_err] <;>
      split_ifs <;> simp_all [is_err]

/-- Claim C8: after `reset()` every id-set query is empty, every
existence and state predicate is false, every count query is zero, and
every load/get lookup is absent. -/
theorem reset_clears_everything (s : ExecDb) (sid : StrategyId)
    (a : AccountId) (c : ClientOrderId) (p : PositionId) :
    get_strategy_ids (reset s) = ∅ ∧
    get_order_ids (reset s) none = ∅ ∧
    get_order_ids (reset s) (some sid) = ∅ ∧
    get_order_working_ids (reset s) none = ∅ ∧
    get_order_working_ids (reset s) (some sid) = ∅ ∧
    get_order_completed_ids (reset s) none = ∅ ∧
    get_order_completed_ids (reset s) (some sid) = ∅ ∧
    get_position_ids (reset s) none = ∅ ∧
    get_position_ids (reset s) (some sid) = ∅ ∧
    get_position_open_ids (reset s) none = ∅ ∧
    get_position_open_ids (reset s) (some sid) = ∅ ∧
    get_position_closed_ids (reset s) none = ∅ ∧
    get_position_closed_ids (reset s) (some sid) = ∅ ∧
    order_exists (reset s) c = false ∧
    is_order_working (reset s) c = false ∧
    is_order_completed (reset s) c = false ∧
    position_exists (reset s) p = false ∧
    is_position_open (reset s) p = false ∧
    is_position_closed (reset s) p = false ∧
    position_exists_for_order (reset s) c = false ∧
    position_indexed_for_order (reset s) c = false ∧
    orders_total_count (reset s) none = 0 ∧
    orders_total_count (reset s) (some sid) = 0 ∧
    orders_working_count (reset s) none = 0 ∧
    orders_working_count (reset s) (some sid) = 0 ∧
    orders_completed_count (reset s) none = 0 ∧
    orders_completed_count (reset s) (some sid) = 0 ∧
    positions_total_count (reset s) none = 0 ∧
    positions_total_count (reset s) (some sid) = 0 ∧
    positions_open_count (reset s) none = 0 ∧
    positions_open_count (reset s) (some sid) = 0 ∧
    positions_closed_count (reset s) none = 0 ∧
    positions_closed_count (reset s) (some sid) = 0 ∧
    load_account (reset s) a = none ∧
    get_account (reset s) a = none ∧
    load_order (reset s) c = none ∧
    get_order (reset s) c = none ∧
    load_position (reset s) p = none ∧
    get_position (reset s) p = none ∧
    get_position_id (reset s) c = none ∧
    get_strategy_for_order (reset s) c = none ∧
    get_strategy_for_position (reset s) p = none := by
  refine ⟨rfl, rfl, rfl, rfl, rfl, rfl, rfl, rfl, rfl, rfl, rfl, rfl, rfl,
    ?_, ?_, ?_, ?_, ?_, ?_, rfl, rfl,
    rfl, rfl, rfl, rfl, rfl, rfl, rfl, rfl, rfl, rfl, rfl, rfl,
    rfl, rfl, rfl, rfl, rfl, rfl, rfl, rfl, rfl⟩
  · simp [order_exists, reset]
  · simp [is_order_working, reset]
  · simp [is_order_completed, reset]
  · simp [position_exists, reset]
  · simp [is_position_open, reset]
  · simp [is_position_closed, reset]

/-- Claim C9: every count query is the cardinality of the corresponding
id-set query. -/
theorem count_queries_are_set_sizes (s : ExecDb) (f : Option StrategyId) :
    orders_total_count s f = (get_order_ids s f).card ∧
    orders_working_count s f = (get_order_working_ids s f).card ∧
    orders_completed_count s f = (get_order_completed_ids s f).card ∧
    positions_total_count s f = (get_position_ids s f).card ∧
    positions_open_count s f = (get_position_open_ids s f).card ∧
    positions_closed_count s f = (get_position_closed_ids s f).card :=
  ⟨rfl, rfl, rfl, rfl, rfl, rfl⟩

/-- Claim C10: `update_order` and `update_position` perform no existence
check against the primary store: they succeed on any non-null record and
move it into the working/closed set while leaving the existence
predicate unchanged. -/
theorem update_no_existence_check (s : ExecDb) (o : Order) (p : Position) :
    (o.is_working = true →
      is_err (update_order s (some o)) = false ∧
      is_order_working (apply_cmd s (Cmd.update_order (some o)))
        o.cl_ord_id = true ∧
      order_exists (apply_cmd s (Cmd.update_order (some o))) o.cl_ord_id =
        order_exists s o.cl_ord_id) ∧
    (p.is_closed = true →
      is_err (update_position s (some p)) = false ∧
      is_position_closed (apply_cmd s (Cmd.update_position (some p)))
        p.id = true ∧
      position_exists (apply_cmd s (Cmd.update_position (some p))) p.id =
        position_exists s p.id) := by
  constructor
  · intro h
    have hup : update_order s (some o) = .ok
        { s with
          index_orders_working := insert o.cl_ord_id s.index_orders_working
          index_orders_completed :=
            s.index_orders_completed.erase o.cl_ord_id } := by
      simp [update_order, h]
    have happ : apply_cmd s (Cmd.update_order (some o)) =
        { s with
          index_orders_working := insert o.cl_ord_id s.index_orders_working
          index_orders_completed :=
            s.index_orders_completed.erase o.cl_ord_id } := by
      simp [apply_cmd, exec, hup]
    refine ⟨by rw [hup]; rfl, ?_, ?_⟩
    · rw [happ]
      simp [is_order_working]
    · rw [happ]
      rfl
  · intro h
    have hup : update_position s (some p) = .ok
        { s with
          index_positions_closed := insert p.id s.index_positions_closed
          index_positions_open := s.index_positions_open.erase p.id } := by
      simp [update_position, h]
    have happ : apply_cmd s (Cmd.update_position (some p)) =
        { s with
          index_positions_closed := insert p.id s.index_positions_closed
          index_positions_open := s.index_positions_open.erase p.id } := by
      simp [apply_cmd, exec, hup]
    refine ⟨by rw [hup]; rfl, ?_, ?_⟩
    · rw [happ]
      simp [is_position_closed]
    · rw [happ]
      rfl

/-- Witness for C10: updating a never-added working order succeeds and
marks it working while `order_exists` stays false. -/
theorem update_no_existence_check_w :
    is_err (update_order initDb (some ⟨⟨1⟩, true, false⟩)) = false ∧
    is_order_working
      (apply_cmd initDb (Cmd.update_order (some ⟨⟨1⟩, true, false⟩)))
      ⟨1⟩ = true ∧
    order_exists
      (apply_cmd initDb (Cmd.update_order (some ⟨⟨1⟩, true, false⟩)))
      ⟨1⟩ = order_exists initDb ⟨1⟩ :=
  (update_no_existence_check initDb ⟨⟨1⟩, true, false⟩
    ⟨⟨1⟩, ⟨1⟩, true⟩).1 rfl

/-- Counterexample to claim C1 as stated: from the fresh store,
`update_position` with a closed position that was never added, followed
by `add_position` of the same id, leaves the id in both positions-open
and positions-closed, because `add_position` does not check the
positions-closed set. -/
theorem position_partition_cex :
    (⟨1⟩ : PositionId) ∈ (run initDb
      [Cmd.update_position (some ⟨⟨1⟩, ⟨1⟩, true⟩),
       Cmd.add_position (some ⟨⟨1⟩, ⟨1⟩, true⟩)
         (some ⟨1⟩)]).index_positions_open ∧
    (⟨1⟩ : PositionId) ∈ (run initDb
      [Cmd.update_position (some ⟨⟨1⟩, ⟨1⟩, true⟩),
       Cmd.add_position (some ⟨⟨1⟩, ⟨1⟩, true⟩)
         (some ⟨1⟩)]).index_positions_closed := by
  decide

/-- Claim C1 (amended): after every command of every sequence from the
fresh store, orders-working and orders-completed are disjoint; and
positions-open and positions-closed are disjoint provided every
`update_position` in the sequence targets a position id that is in the
"positions" set at that moment. -/
theorem partition_invariant_runs (cmds : List Cmd) :
    Disjoint (run initDb cmds).index_orders_working
      (run initDb cmds).index_orders_completed ∧
    (good_run initDb cmds = true →
      Disjoint (run initDb cmds).index_positions_open
        (run initDb cmds).index_positions_closed) := by
  constructor
  · refine run_wc cmds initDb ?_
    show Disjoint (∅ : Finset ClientOrderId) ∅
    simp
  · intro hg
    refine (run_pos_inv cmds initDb ⟨?_, ?_⟩ hg).1
    · show Disjoint (∅ : Finset PositionId) ∅
      simp
    · show (∅ : Finset PositionId) ⊆ ∅
      simp

/-- Witness for C1 (amended) on a concrete safe sequence. -/
theorem partition_invariant_runs_w :
    Disjoint (run initDb
      [Cmd.add_position (some ⟨⟨1⟩, ⟨1⟩, false⟩) (some ⟨1⟩),
       Cmd.update_position
         (some ⟨⟨1⟩, ⟨1⟩, true⟩)]).index_positions_open
      (run initDb
      [Cmd.add_position (some ⟨⟨1⟩, ⟨1⟩, false⟩) (some ⟨1⟩),
       Cmd.update_position
         (some ⟨⟨1⟩, ⟨1⟩, true⟩)]).index_positions_closed :=
  (partition_invariant_runs
    [Cmd.add_position (some ⟨⟨1⟩, ⟨1⟩, false⟩) (some ⟨1⟩),
     Cmd.update_position (some ⟨⟨1⟩, ⟨1⟩, true⟩)]).2 (by decide)

/-- Counterexample to claim C3 as stated: a reachable store whose
orders-working set holds an id with no backing record; the partial
mapping would be the empty dict, but `get_orders_working` returns the
absent result instead. -/
theorem dict_query_defect_cex :
    (⟨1⟩ : ClientOrderId) ∈ get_order_working_ids
      (run initDb [Cmd.update_order (some ⟨⟨1⟩, true, false⟩)]) none ∧
    (run initDb [Cmd.update_order
      (some ⟨⟨1⟩, true, false⟩)]).cached_orders ⟨1⟩ = none ∧
    (get_orders_working
      (run initDb [Cmd.update_order (some ⟨⟨1⟩, true, false⟩)]) none).1 =
      none := by
  refine ⟨by decide, by decide, rfl⟩

/-- Claim C3 (amended): when some id in the id set of a dict-returning
query has no backing record, the query logs an error and returns the
absent result (`None`), not a partial mapping; it does not raise. -/
theorem dict_query_defect_returns_none (s : ExecDb)
    (f : Option StrategyId) :
    ((¬ ∀ i ∈ get_order_ids s f, (s.cached_orders i).isSome = true) →
      get_orders s f = (none, true)) ∧
    ((¬ ∀ i ∈ get_order_working_ids s f,
        (s.cached_orders i).isSome = true) →
      get_orders_working s f = (none, true)) ∧
    ((¬ ∀ i ∈ get_order_completed_ids s f,
        (s.cached_orders i).isSome = true) →
      get_orders_completed s f = (none, true)) ∧
    ((¬ ∀ i ∈ get_position_ids s f, (s.cached_positions i).isSome = true) →
      get_positions s f = (none, true)) ∧
    ((¬ ∀ i ∈ get_position_open_ids s f,
        (s.cached_positions i).isSome = true) →
      get_positions_open s f = (none, true)) ∧
    ((¬ ∀ i ∈ get_position_closed_ids s f,
        (s.cached_positions i).isSome = true) →
      get_positions_closed s f = (none, true)) := by
  refine ⟨?_, ?_, ?_, ?_, ?_, ?_⟩
  · intro h
    simp [get_orders, build_dict, h]
  · intro h
    simp [get_orders_working, build_dict, h]
  · intro h
    simp [get_orders_completed, build_dict, h]
  · intro h
    simp [get_positions, build_dict, h]
  · intro h
    simp [get_positions_open, build_dict, h]
  · intro h
    simp [get_positions_closed, build_dict, h]

/-- Witness for C3 (amended) at a concrete defective store. -/
theorem dict_query_defect_returns_none_w :
    get_orders_working
      (run initDb [Cmd.update_order (some ⟨⟨1⟩, true, false⟩)]) none =
      (none, true) :=
  (dict_query_defect_returns_none
    (run initDb [Cmd.update_order (some ⟨⟨1⟩, true, false⟩)])
    none).2.1 (by decide)

/-- Claim C5: `add_order` with the NULL position id leaves the
position-scoped indices untouched — the order id appears in no
position→orders set and `get_position_id` is absent — while the order is
inserted in the primary store, the orders set, order→strategy, and
strategy→orders. -/
theorem null_position_add_order (cmds : List Cmd) (o : Order)
    (pid : PositionId) (sid : StrategyId)
    (hnull : pid.is_null = true)
    (hok : is_err (add_order (run initDb cmds) (some o) (some pid)
      (some sid)) = false) :
    (∀ p, o.cl_ord_id ∉
      (((apply_cmd (run initDb cmds) (Cmd.add_order (some o) (some pid)
        (some sid))).index_position_orders p).getD ∅)) ∧
    get_position_id (apply_cmd (run initDb cmds)
      (Cmd.add_order (some o) (some pid) (some sid))) o.cl_ord_id =
      none ∧
    (apply_cmd (run initDb cmds) (Cmd.add_order (some o) (some pid)
      (some sid))).cached_orders o.cl_ord_id = some o ∧
    o.cl_ord_id ∈ (apply_cmd (run initDb cmds)
      (Cmd.add_order (some o) (some pid) (some sid))).index_orders ∧
    (apply_cmd (run initDb cmds) (Cmd.add_order (some o) (some pid)
      (some sid))).index_order_strategy o.cl_ord_id = some sid ∧
    o.cl_ord_id ∈ (((apply_cmd (run initDb cmds)
      (Cmd.add_order (some o) (some pid)
        (some sid))).index_strategy_orders sid).getD ∅) := by
  obtain ⟨s1, hs1⟩ : ∃ s1, add_order (run initDb cmds) (some o) (some pid)
      (some sid) = .ok s1 := by
    cases hcase : add_order (run initDb cmds) (some o) (some pid)
        (some sid) with
    | ok s1 => exact ⟨s1, rfl⟩
    | error e =>
      rw [hcase] at hok
      simp [is_err] at hok
  obtain ⟨o0, pid0, sid0, ho, hp, hsid2, hc1, hc2, hc3, hc4, hres⟩ :=
    add_order_ok_inv hs1
  injection ho with ho2
  subst ho2
  injection hp with hp2
  subst hp2
  injection hsid2 with hsid3
  subst hsid3
  rcases hres with ⟨-, rfl⟩ | ⟨hf, -⟩
  · have happ : apply_cmd (run initDb cmds)
        (Cmd.add_order (some o) (some pid) (some sid)) =
        add_order_core (run initDb cmds) o sid := by
      simp [apply_cmd, exec, hs1]
    rw [happ]
    refine ⟨?_, ?_, ?_, ?_, ?_, ?_⟩
    · intro p hmem
      have hidx := run_orders_indexed cmds p o.cl_ord_id hmem
      rw [hc3] at hidx
      cases hidx
    · show (run initDb cmds).index_order_position o.cl_ord_id = none
      cases hop : (run initDb cmds).index_order_position o.cl_ord_id with
      | none => rfl
      | some q =>
        rw [hop] at hc3
        simp at hc3
    · show fupd (run initDb cmds).cached_orders o.cl_ord_id o
        o.cl_ord_id = some o
      simp [fupd]
    · exact Finset.mem_insert_self _ _
    · show fupd (run initDb cmds).index_order_strategy o.cl_ord_id sid
        o.cl_ord_id = some sid
      simp [fupd]
    · show o.cl_ord_id ∈ ((madd (run initDb cmds).index_strategy_orders
        sid o.cl_ord_id sid).getD ∅)
      simp [madd]
  · rw [hnull] at hf
    cases hf

/-- Witness for C5 at the fresh store with the NULL position id. -/
theorem null_position_add_order_w :
    get_position_id (apply_cmd initDb
      (Cmd.add_order (some ⟨⟨1⟩, false, false⟩) (some ⟨0⟩) (some ⟨1⟩)))
      ⟨1⟩ = none ∧
    (⟨1⟩ : ClientOrderId) ∉ (((apply_cmd initDb
      (Cmd.add_order (some ⟨⟨1⟩, false, false⟩) (some ⟨0⟩)
        (some ⟨1⟩))).index_position_orders ⟨7⟩).getD ∅) := by
  have h := null_position_add_order [] ⟨⟨1⟩, false, false⟩ ⟨0⟩ ⟨1⟩
    (by decide) (by decide)
  exact ⟨h.2.1, h.1 ⟨7⟩⟩

/-- Counterexample to claim C6 as stated: with a conflicting
order→position entry in place, `index_position_id` performs no
strategy→orders union — that index is maintained only by `add_order`. -/
theorem index_position_id_union_cex :
    (run initDb [Cmd.add_order (some ⟨⟨1⟩, false, false⟩) (some ⟨1⟩)
      (some ⟨1⟩)]).index_order_position ⟨1⟩ = some ⟨1⟩ ∧
    (⟨1⟩ : PositionId) ≠ ⟨2⟩ ∧
    (index_position_id (run initDb [Cmd.add_order
      (some ⟨⟨1⟩, false, false⟩) (some ⟨1⟩) (some ⟨1⟩)]) ⟨2⟩ ⟨1⟩
      ⟨2⟩).index_strategy_orders ⟨2⟩ = none := by
  decide

/-- Claim C6 (amended): the order→position and position→strategy entries
are set-once — on a conflicting re-association `index_position_id`
keeps the existing entry, increments the error log, and does not fail —
and the position→orders and strategy→positions unions still take place;
`index_position_id` leaves strategy→orders unchanged (that union is done
by `add_order` alone). -/
theorem index_position_id_set_once (s : ExecDb) (pid : PositionId)
    (c : ClientOrderId) (sid : StrategyId) :
    (∀ q, s.index_order_position c = some q → q ≠ pid →
      (index_position_id s pid c sid).index_order_position c = some q ∧
      s.log_error_count <
        (index_position_id s pid c sid).log_error_count) ∧
    (∀ r, s.index_position_strategy pid = some r → r ≠ sid →
      (index_position_id s pid c sid).index_position_strategy pid =
        some r ∧
      s.log_error_count <
        (index_position_id s pid c sid).log_error_count) ∧
    c ∈ (((index_position_id s pid c sid).index_position_orders
      pid).getD ∅) ∧
    pid ∈ (((index_position_id s pid c sid).index_strategy_positions
      sid).getD ∅) ∧
    (index_position_id s pid c sid).index_strategy_orders =
      s.index_strategy_orders := by
  refine ⟨?_, ?_, ?_, ?_, rfl⟩
  · intro q hq hne
    constructor
    · rw [ipi_order_position_eq]
      simp [hq]
    · rw [ipi_log_conflict_order s pid c sid q hq hne]
      exact Nat.lt_of_lt_of_le (Nat.lt_add_one _) (Nat.le_add_right _ _)
  · intro r hr hne
    constructor
    · rw [ipi_position_strategy_eq]
      simp [hr]
    · rw [ipi_log_conflict_strategy s pid c sid r hr hne]
      exact Nat.lt_succ_of_le (Nat.le_add_right _ _)
  · show c ∈ ((madd s.index_position_orders pid c pid).getD ∅)
    simp [madd]
  · show pid ∈ ((madd s.index_strategy_positions sid pid sid).getD ∅)
    simp [madd]

/-- Witness for C6 (amended) at a concrete conflicting state. -/
theorem index_position_id_set_once_w :
    (index_position_id (run initDb [Cmd.add_order
      (some ⟨⟨1⟩, false, false⟩) (some ⟨1⟩) (some ⟨1⟩)]) ⟨2⟩ ⟨1⟩
      ⟨2⟩).index_order_position ⟨1⟩ = some ⟨1⟩ ∧
    (run initDb [Cmd.add_order (some ⟨⟨1⟩, false, false⟩) (some ⟨1⟩)
      (some ⟨1⟩)]).log_error_count <
    (index_position_id (run initDb [Cmd.add_order
      (some ⟨⟨1⟩, false, false⟩) (some ⟨1⟩) (some ⟨1⟩)]) ⟨2⟩ ⟨1⟩
      ⟨2⟩).log_error_count :=
  (index_position_id_set_once (run initDb [Cmd.add_order
    (some ⟨⟨1⟩, false, false⟩) (some ⟨1⟩) (some ⟨1⟩)]) ⟨2⟩ ⟨1⟩ ⟨2⟩).1
    ⟨1⟩ (by decide) (by decide)

/-- Claim C7: deleting a registered strategy removes it from the known
strategies and drops its two strategy-scoped index entries (so its
filtered id queries are empty), while every other component of the store
is unchanged and records stay retrievable by id; deleting an
unregistered strategy raises the not-found precondition error. -/
theorem delete_strategy_effects (s : ExecDb) (sid : StrategyId) :
    (sid ∈ s.strategies →
      is_err (delete_strategy s (some ⟨sid⟩)) = false ∧
      sid ∉ (apply_cmd s (Cmd.delete_strategy (some ⟨sid⟩))).strategies ∧
      (apply_cmd s (Cmd.delete_strategy
        (some ⟨sid⟩))).index_strategy_orders sid = none ∧
      (apply_cmd s (Cmd.delete_strategy
        (some ⟨sid⟩))).index_strategy_positions sid = none ∧
      get_order_ids (apply_cmd s (Cmd.delete_strategy (some ⟨sid⟩)))
        (some sid) = ∅ ∧
      get_position_ids (apply_cmd s (Cmd.delete_strategy (some ⟨sid⟩)))
        (some sid) = ∅ ∧
      (apply_cmd s (Cmd.delete_strategy (some ⟨sid⟩))).cached_accounts =
        s.cached_accounts ∧
      (apply_cmd s (Cmd.delete_strategy (some ⟨sid⟩))).cached_orders =
        s.cached_orders ∧
      (apply_cmd s (Cmd.delete_strategy (some ⟨sid⟩))).cached_positions =
        s.cached_positions ∧
      (apply_cmd s (Cmd.delete_strategy
        (some ⟨sid⟩))).index_order_position = s.index_order_position ∧
      (apply_cmd s (Cmd.delete_strategy
        (some ⟨sid⟩))).index_order_strategy = s.index_order_strategy ∧
      (apply_cmd s (Cmd.delete_strategy
        (some ⟨sid⟩))).index_position_strategy =
        s.index_position_strategy ∧
      (apply_cmd s (Cmd.delete_strategy
        (some ⟨sid⟩))).index_position_orders = s.index_position_orders ∧
      (apply_cmd s (Cmd.delete_strategy (some ⟨sid⟩))).index_orders =
        s.index_orders ∧
      (apply_cmd s (Cmd.delete_strategy
        (some ⟨sid⟩))).index_orders_working = s.index_orders_working ∧
      (apply_cmd s (Cmd.delete_strategy
        (some ⟨sid⟩))).index_orders_completed =
        s.index_orders_completed ∧
      (apply_cmd s (Cmd.delete_strategy (some ⟨sid⟩))).index_positions =
        s.index_positions ∧
      (apply_cmd s (Cmd.delete_strategy
        (some ⟨sid⟩))).index_positions_open = s.index_positions_open ∧
      (apply_cmd s (Cmd.delete_strategy
        (some ⟨sid⟩))).index_positions_closed =
        s.index_positions_closed ∧
      (∀ c, get_order (apply_cmd s (Cmd.delete_strategy (some ⟨sid⟩)))
        c = get_order s c) ∧
      (∀ c, load_order (apply_cmd s (Cmd.delete_strategy (some ⟨sid⟩)))
        c = load_order s c) ∧
      (∀ p, get_position (apply_cmd s (Cmd.delete_strategy
        (some ⟨sid⟩))) p = get_position s p) ∧
      (∀ p, load_position (apply_cmd s (Cmd.delete_strategy
        (some ⟨sid⟩))) p = load_position s p)) ∧
    (sid ∉ s.strategies →
      delete_strategy s (some ⟨sid⟩) =
        .error (.missing_from "strategy.id" "strategies")) := by
  constructor
  · intro hmem
    have hdel : delete_strategy s (some ⟨sid⟩) = .ok
        { s with
          strategies := s.strategies.erase sid
          index_strategy_orders := fdel s.index_strategy_orders sid
          index_strategy_positions :=
            fdel s.index_strategy_positions sid } := by
      simp [delete_strategy, hmem]
    have happ : apply_cmd s (Cmd.delete_strategy (some ⟨sid⟩)) =
        { s with
          strategies := s.strategies.erase sid
          index_strategy_orders := fdel s.index_strategy_orders sid
          index_strategy_positions :=
            fdel s.index_strategy_positions sid } := by
      simp [apply_cmd, exec, hdel]
    rw [happ]
    exact ⟨by rw [hdel]; rfl, Finset.not_mem_erase _ _,
      by simp [fdel], by simp [fdel],
      by simp [get_order_ids, fdel], by simp [get_position_ids, fdel],
      rfl, rfl, rfl, rfl, rfl, rfl, rfl, rfl, rfl, rfl, rfl, rfl, rfl,
      fun c => rfl, fun c => rfl, fun p => rfl, fun p => rfl⟩
  · intro hmem
    simp [delete_strategy, hmem]

/-- Witness for C7 at a concrete store with one registered strategy. -/
theorem delete_strategy_effects_w :
    is_err (delete_strategy
      (apply_cmd initDb (Cmd.update_strategy (some ⟨⟨1⟩⟩)))
      (some ⟨⟨1⟩⟩)) = false ∧
    get_order_ids (apply_cmd
      (apply_cmd initDb (Cmd.update_strategy (some ⟨⟨1⟩⟩)))
      (Cmd.delete_strategy (some ⟨⟨1⟩⟩))) (some ⟨1⟩) = ∅ := by
  have h := (delete_strategy_effects
    (apply_cmd initDb (Cmd.update_strategy (some ⟨⟨1⟩⟩))) ⟨1⟩).1
    (by decide)
  exact ⟨h.1, h.2.2.2.2.1⟩

end NautilusExec
